/-
  Verification of the natural-language specification of
  dRowAudio_PositionableWaveDisplay.cpp (the PositionableWaveDisplay
  component of the dRowAudio JUCE module).

  The component is shallowly embedded: C++ doubles become exact rationals,
  C++ ints become integers, and every member function of the component
  becomes a pure function from the component state (plus the external
  inputs it reads) to the new state together with its observable effects
  (repaint requests, seek requests).  Conversions from double to int in
  C++ truncate toward zero; that conversion is modelled by cppTrunc.
  Rational division by zero yields 0 in Lean, which differs from IEEE
  doubles, so every operation that performs a division also returns the
  list of divisors it divided by; a division by zero in the C++ code is
  visible as the value 0 in that list.
-/
import Mathlib

/-- Dimensions of a juce Image.  The waveform cache and the cursor glyph
are only ever inspected through their width and height, so an image is
modelled by those two fields. -/
structure Img where
  width : ℤ
  height : ℤ
deriving DecidableEq

/-- Modelled from the spec: the double-buffered cursor pixel coordinate
(section 3, CursorPosition, and section 4.3).  The header
dRowAudio_StateVariable.h that defines the C++ class StateVariable is not
part of the sources; the spec states that assignment moves the current
value into previous and stores the new value as current, and that the
minimal-redraw decision compares the two. -/
structure StateVariable where
  previous : ℤ
  current : ℤ
deriving DecidableEq

/-- Modelled from the spec: assignment to the double buffer
(previous receives the old current, current receives the new value). -/
def StateVariable.set (v : StateVariable) (n : ℤ) : StateVariable :=
  ⟨v.current, n⟩

/-- Modelled from the spec: comparison of the two buffered values. -/
def StateVariable.areEqual (v : StateVariable) : Bool :=
  decide (v.previous = v.current)

/-- A repaint request issued to the toolkit: either repaint() on the whole
component or repaint(x, y, w, h) on a rectangle. -/
inductive RepaintReq where
  | full
  | region (x y w h : ℤ)
deriving DecidableEq

/-- State of the PositionableWaveDisplay component.  Fields follow the
member variables of the C++ class; width and height are the component
bounds reported by getWidth() and getHeight(); timer models the
waveformUpdated timer of the MultipleTimer base (none when stopped,
some interval when running). -/
structure WaveState where
  currentSampleRate : ℚ
  zoomRatio : ℚ
  startOffsetRatio : ℚ
  verticalZoomRatio : ℚ
  showTransportCursor : Bool
  fileLength : ℚ
  oneOverFileLength : ℚ
  timer : Option ℤ
  cachedImage : Option Img
  cursorImage : Option Img
  transportLineXCoord : StateVariable
  currentXScale : ℚ
  currentMouseX : ℤ
  width : ℤ
  height : ℤ
deriving DecidableEq

/-- Truncation of a C++ double to int: rounding toward zero. -/
def cppTrunc (q : ℚ) : ℤ :=
  q.num.tdiv (q.den : ℤ)

/-- Width of a possibly null image; juce Image null reports width 0. -/
def imgWidth : Option Img → ℤ
  | none => 0
  | some g => g.width

/-- Height of a possibly null image; juce Image null reports height 0. -/
def imgHeight : Option Img → ℤ
  | none => 0
  | some g => g.height

/-- Result of juce Image rescaled: an image with the requested dimensions
(the call is external to this repository; it returns a raster of exactly
the width and height it is asked for). -/
def rescaled (_g : Img) (w h : ℤ) : Img :=
  ⟨w, h⟩

/-- State after the constructor (lines 23-40): sample rate 44100, zoom 1,
offsets 0, vertical zoom 1, cursor shown, a 1 by 1 cached image, no timer
running.  The C++ constructor leaves fileLength, oneOverFileLength,
currentXScale and currentMouseX uninitialised; the model takes 0 for
them (no claim depends on the value before it is first written). -/
def initState : WaveState :=
  { currentSampleRate := 44100
  , zoomRatio := 1
  , startOffsetRatio := 0
  , verticalZoomRatio := 1
  , showTransportCursor := true
  , fileLength := 0
  , oneOverFileLength := 0
  , timer := none
  , cachedImage := some ⟨1, 1⟩
  , cursorImage := none
  , transportLineXCoord := ⟨0, 0⟩
  , currentXScale := 0
  , currentMouseX := 0
  , width := 0
  , height := 0 }

/-- Translation of PositionableWaveDisplay::setZoomRatio (lines 48-58).
The guard tests newZoomRatio < 0.0 or newZoomRatio > 10000.0 and replaces
such values by 1.0; the value is stored and repaint() is requested
unconditionally. -/
def setZoomRatio (s : WaveState) (newZoomRatio : ℚ) :
    WaveState × List RepaintReq :=
  let z := if newZoomRatio < 0 ∨ newZoomRatio > 10000 then (1 : ℚ) else newZoomRatio
  ({ s with zoomRatio := z }, [RepaintReq.full])

/-- Translation of PositionableWaveDisplay::setCursorDisplayed
(lines 72-80): stores the flag, then starts the waveformUpdated timer
with interval 40 when the flag is true and stops it otherwise. -/
def setCursorDisplayed (s : WaveState) (b : Bool) : WaveState :=
  { s with showTransportCursor := b,
           timer := if b then some 40 else none }

/-- Translation of PositionableWaveDisplay::resized (lines 97-111).
The cursor image is built 3 pixels wide with height jmax(1, getHeight());
when the thumbnail has finished loading (external input finishedLoading),
the cached image is replaced by the source image rescaled to exactly
getWidth() by getHeight(); otherwise it is left as it was.  The new
component bounds are the external inputs newWidth and newHeight. -/
def resized (s : WaveState) (newWidth newHeight : ℤ) (finishedLoading : Bool)
    (sourceImage : Img) : WaveState :=
  let s1 := { s with width := newWidth, height := newHeight,
                     cursorImage := some ⟨3, max 1 newHeight⟩ }
  if finishedLoading then
    { s1 with cachedImage := some (rescaled sourceImage newWidth newHeight) }
  else s1

/-- The int startPixel computed at lines 121, 142 and 206:
truncation of getWidth() * startOffsetRatio. -/
def startPixelOf (s : WaveState) : ℤ :=
  cppTrunc ((s.width : ℚ) * s.startOffsetRatio)

/-- Arguments of the g.drawImage call in paint (lines 125-128):
destination rectangle and source rectangle, all truncated to int at the
call as in the juce signature. -/
structure DrawCall where
  destX : ℤ
  destY : ℤ
  destW : ℤ
  destH : ℤ
  srcX : ℤ
  srcY : ℤ
  srcW : ℤ
  srcH : ℤ
deriving DecidableEq

/-- Translation of PositionableWaveDisplay::paint (lines 113-132).
Returns the drawImage call for the cached image and, when the transport
cursor is shown, the x coordinate at which the cursor image is drawn
(transportLineXCoord.getCurrent() - 1).  The source rectangle of the
drawImage call is (0, 0, cachedImage.getWidth() * zoomRatio,
cachedImage.getHeight()); the destination rectangle is
(startPixel, startPixelY, w, newHeight) with
newHeight = verticalZoomRatio * h and
startPixelY = h * 0.5 - newHeight * 0.5. -/
def paint (s : WaveState) : DrawCall × Option ℤ :=
  let w := s.width
  let h := s.height
  let startPixel := startPixelOf s
  let newHeight : ℚ := s.verticalZoomRatio * (h : ℚ)
  let startPixelY : ℤ := cppTrunc ((h : ℚ) * (1 / 2) - newHeight * (1 / 2))
  ({ destX := startPixel
   , destY := startPixelY
   , destW := w
   , destH := cppTrunc newHeight
   , srcX := 0
   , srcY := 0
   , srcW := cppTrunc ((imgWidth s.cachedImage : ℚ) * s.zoomRatio)
   , srcH := imgHeight s.cachedImage }
  , if s.showTransportCursor then some (s.transportLineXCoord.current - 1) else none)

/-- The cursor pixel computed by the tick at lines 142-143:
startPixel + ((w * oneOverFileLength * currentPosition) / zoomRatio),
truncated to int when stored into the StateVariable of ints.
currentPosition is the external input audioFilePlayer->getCurrentPosition(). -/
def cursorPixel (s : WaveState) (currentPosition : ℚ) : ℤ :=
  cppTrunc ((startPixelOf s : ℚ) +
    ((s.width : ℚ) * s.oneOverFileLength * currentPosition) / s.zoomRatio)

/-- Effects of one timer tick: the new state, the repaint requests issued,
and the divisors of the divisions performed. -/
structure TimerEffects where
  state : WaveState
  repaints : List RepaintReq
  divisors : List ℚ

/-- Translation of PositionableWaveDisplay::timerCallback for the
waveformUpdated timer (lines 135-152).  The new cursor pixel is assigned
to the double-buffered coordinate; when the two buffered values differ,
repaint(previous - 2, 0, 5, h) and repaint(current - 2, 0, 5, h) are
requested, otherwise nothing is repainted.  The body divides by
zoomRatio. -/
def timerCallback (s : WaveState) (currentPosition : ℚ) : TimerEffects :=
  let h := s.height
  let tl := s.transportLineXCoord.set (cursorPixel s currentPosition)
  { state := { s with transportLineXCoord := tl }
  , repaints :=
      if tl.areEqual then []
      else [RepaintReq.region (tl.previous - 2) 0 5 h,
            RepaintReq.region (tl.current - 2) 0 5 h]
  , divisors := [s.zoomRatio] }

/-- Translation of PositionableWaveDisplay::imageChanged (lines 155-182).
matchesOwn models the pointer comparison with the own thumbnail source;
readerSampleRate is the sample rate of the available reader (none when
readerSource or reader is null); lengthInSeconds is
audioFilePlayer->getLengthInSeconds().  On a matching source the cached
image is set to Image::null; with a valid reader the snapshot is
refreshed (dividing by the new fileLength for oneOverFileLength) and the
timer is started when the cursor is shown; otherwise the snapshot is
reset to 44100 and length 0 and oneOverFileLength is computed as
1.0 / fileLength with fileLength = 0 (divisor 0 in the returned list).
Neither branch stops the timer. -/
def imageChanged (s : WaveState) (matchesOwn : Bool)
    (readerSampleRate : Option ℚ) (lengthInSeconds : ℚ) :
    WaveState × List ℚ :=
  if matchesOwn then
    let s1 := { s with cachedImage := (none : Option Img) }
    match readerSampleRate with
    | some sr =>
      if 0 < sr then
        ({ s1 with currentSampleRate := sr,
                   fileLength := lengthInSeconds,
                   oneOverFileLength := 1 / lengthInSeconds,
                   timer := if s1.showTransportCursor then some 40 else s1.timer },
         [lengthInSeconds])
      else
        ({ s1 with currentSampleRate := 44100,
                   fileLength := 0,
                   oneOverFileLength := 1 / (0 : ℚ) }, [(0 : ℚ)])
    | none =>
        ({ s1 with currentSampleRate := 44100,
                   fileLength := 0,
                   oneOverFileLength := 1 / (0 : ℚ) }, [(0 : ℚ)])
  else (s, [])

/-- Translation of PositionableWaveDisplay::imageUpdated (lines 184-188):
the argument naming the changed source is ignored; the cached image is
replaced by the current source image at native resolution and a full
repaint is requested. -/
def imageUpdated (s : WaveState) (_matchesOwn : Bool) (sourceImage : Img) :
    WaveState × List RepaintReq :=
  ({ s with cachedImage := some sourceImage }, [RepaintReq.full])

/-- Translation of PositionableWaveDisplay::imageFinished (lines 190-193):
the argument naming the changed source is ignored; the body calls
resized(), which reruns the resize path at the current bounds with the
current hasFinishedLoading() value (external input finishedLoading). -/
def imageFinished (s : WaveState) (_matchesOwn : Bool)
    (finishedLoading : Bool) (sourceImage : Img) : WaveState :=
  resized s s.width s.height finishedLoading sourceImage

/-- Effects of a mouse press: the new state, the seek request sent to
audioFilePlayer->setPosition (none when the cursor is not displayed), and
the divisors of the divisions performed. -/
structure MouseDownEffects where
  state : WaveState
  seekRequest : Option ℚ
  divisors : List ℚ

/-- Translation of PositionableWaveDisplay::mouseDown (lines 196-212).
When the cursor is displayed: currentMouseX := e.x, currentXScale :=
(fileLength / w) * zoomRatio (dividing by the component width), and
position := currentXScale * (currentMouseX - startPixel) is sent as a
seek request.  Otherwise nothing happens. -/
def mouseDown (s : WaveState) (ex : ℤ) : MouseDownEffects :=
  if s.showTransportCursor then
    let scale := (s.fileLength / (s.width : ℚ)) * s.zoomRatio
    let position := scale * ((ex - startPixelOf s : ℤ) : ℚ)
    { state := { s with currentMouseX := ex, currentXScale := scale }
    , seekRequest := some position
    , divisors := [(s.width : ℚ)] }
  else
    { state := s, seekRequest := none, divisors := [] }

/-- Operations quantified over by the poller-activity claim:
setCursorDisplayed calls and image-changed notifications. -/
inductive Op where
  | cursorDisplayed (b : Bool)
  | imgChanged (matchesOwn : Bool) (readerSampleRate : Option ℚ)
      (lengthInSeconds : ℚ)

/-- Application of one operation to the component state. -/
def applyOp (s : WaveState) (op : Op) : WaveState :=
  match op with
  | Op.cursorDisplayed b => setCursorDisplayed s b
  | Op.imgChanged m r len => (imageChanged s m r len).1

/-- State after a sequence of operations run from the constructor state. -/
def runOps (ops : List Op) : WaveState :=
  ops.foldl applyOp initState

/-- The geometry mapper of the spec, forward direction: the double-valued
expression of timerCallback line 143 with oneOverFileLength expanded to
1 / fileLength, before truncation to int. -/
def pixelForPosition (positionSeconds viewportWidth startOffset zoom fileLen : ℚ) : ℚ :=
  viewportWidth * startOffset +
    (viewportWidth * (1 / fileLen) * positionSeconds) / zoom

/-- The geometry mapper of the spec, inverse direction: the double-valued
expression of mouseDown lines 204-207 (scale times the distance from the
start pixel), before any truncation. -/
def positionForPixel (pixelX viewportWidth startOffset zoom fileLen : ℚ) : ℚ :=
  ((fileLen / viewportWidth) * zoom) * (pixelX - viewportWidth * startOffset)

/-- State with the poller running, reachable by enabling the cursor. -/
def c5State : WaveState :=
  { initState with timer := some 40, showTransportCursor := true }

/-- C2: the setter guard tests newZoomRatio < 0.0, not <= 0.0, so the
boundary value 0 is stored unchanged instead of being replaced by 1.0 as
the claim (and the assertion comment at line 52, which demands a ratio
strictly greater than 0) require.  Evaluated at the failing input 0. -/
theorem c2_zoom_zero_eval :
    (setZoomRatio initState 0).1.zoomRatio = 0 ∧
    decide ((setZoomRatio initState 0).1.zoomRatio = 1) = false := by
  decide

/-- C4 counterexample: the image-changed handler with no available reader
performs the division 1.0 / fileLength with fileLength already set to 0,
so an operation of the component does divide by zero. -/
theorem c4_counterexample :
    (0 : ℚ) ∈ (imageChanged initState true none 0).2 := by
  decide

/-- C4 (amended): on the invalid-reader path the code always computes
oneOverFileLength as 1.0 / fileLength with fileLength = 0 (the lone
divisor recorded is 0), and it leaves the timer state unchanged, so a
running poller keeps ticking against the zeroed snapshot. -/
theorem c4_amended_divide_by_zero (s : WaveState) (len : ℚ) :
    (imageChanged s true none len).2 = [0] ∧
    (imageChanged s true none len).1.fileLength = 0 ∧
    (imageChanged s true none len).1.timer = s.timer :=
  ⟨rfl, rfl, rfl⟩

/-- C5 counterexample: from a state whose poller is running, an
image-changed notification with no available reader leaves the timer
running (the invalid branch has no stopTimer call), contradicting the
claim that the poller stops. -/
theorem c5_counterexample :
    (imageChanged c5State true none 0).1.timer = some 40 ∧
    decide ((imageChanged c5State true none 0).1.timer = none) = false := by
  decide

/-- C5 (amended): an image-changed notification with no available reader
resets the snapshot to sample rate 44100 and file length 0 and
invalidates the cached image, but does not stop the poller: the timer
state is left exactly as it was. -/
theorem c5_amended_invalid_reader_reset (s : WaveState) (len : ℚ) :
    (imageChanged s true none len).1.currentSampleRate = 44100 ∧
    (imageChanged s true none len).1.fileLength = 0 ∧
    (imageChanged s true none len).1.cachedImage = none ∧
    (imageChanged s true none len).1.timer = s.timer :=
  ⟨rfl, rfl, rfl, rfl⟩

/-- C10: an image-changed notification for a source other than the own
thumbnail leaves the whole state unchanged and performs no division,
while image-updated and image-finished ignore which source is passed:
their results are independent of the source argument, image-updated
always installs the latest source image as the cached image, and
image-finished with a finished source always rebuilds the cached image
rescaled to the current bounds. -/
theorem c10_notification_guard (s : WaveState) (r : Option ℚ) (len : ℚ)
    (m n : Bool) (img : Img) (fin : Bool) :
    (imageChanged s false r len).1 = s ∧
    (imageChanged s false r len).2 = [] ∧
    imageUpdated s m img = imageUpdated s n img ∧
    (imageUpdated s m img).1.cachedImage = some img ∧
    imageFinished s m fin img = imageFinished s n fin img ∧
    (imageFinished s m true img).cachedImage =
      some (rescaled img s.width s.height) :=
  ⟨rfl, rfl, rfl, rfl, rfl, rfl⟩

/-- Operation sequence driving the component into a state with the poller
running and file length 0: an image-changed notification with no reader
(file cleared) followed by enabling the cursor. -/
def c1BadOps : List Op :=
  [Op.imgChanged true none 0, Op.cursorDisplayed true]

/-- One operation preserves the invariant that the timer only runs while
the transport cursor is shown. -/
theorem applyOp_timer_cursor (s : WaveState) (op : Op)
    (h : s.timer.isSome = true → s.showTransportCursor = true) :
    (applyOp s op).timer.isSome = true →
      (applyOp s op).showTransportCursor = true := by
  cases op with
  | cursorDisplayed b => cases b <;> simp [applyOp, setCursorDisplayed]
  | imgChanged m r len =>
      cases m with
      | false => simpa [applyOp, imageChanged] using h
      | true =>
          cases r with
          | none => simpa [applyOp, imageChanged] using h
          | some sr =>
              by_cases hsr : (0 : ℚ) < sr
              · by_cases hc : s.showTransportCursor = true
                · simp [applyOp, imageChanged, hsr, hc]
                · simpa [applyOp, imageChanged, hsr, hc] using h
              · simpa [applyOp, imageChanged, hsr] using h

/-- A whole operation sequence preserves the timer invariant. -/
theorem foldl_timer_cursor (ops : List Op) (s : WaveState)
    (h : s.timer.isSome = true → s.showTransportCursor = true) :
    (ops.foldl applyOp s).timer.isSome = true →
      (ops.foldl applyOp s).showTransportCursor = true := by
  induction ops generalizing s with
  | nil => simpa using h
  | cons op rest ih => exact ih _ (applyOp_timer_cursor s op h)

/-- C1 counterexample: after clearing the file (no reader, file length 0)
and then calling setCursorDisplayed(true), the 40ms timer is running even
though fileLengthSeconds = 0, so the poller is active in a state the
claim forbids. -/
theorem c1_counterexample :
    (runOps c1BadOps).timer = some 40 ∧
    (runOps c1BadOps).fileLength = 0 ∧
    decide (0 < (runOps c1BadOps).fileLength) = false := by
  decide

/-- C1 (amended): over every sequence of setCursorDisplayed calls and
image-changed notifications from the constructor state, the poller runs
only while showCursor is true, but it may be active while
fileLengthSeconds = 0: setCursorDisplayed(true) starts the 40ms timer
unconditionally (whether or not a valid file is loaded) and
setCursorDisplayed(false) stops it. -/
theorem c1_amended_timer_invariant (ops : List Op) (s : WaveState) :
    ((runOps ops).timer.isSome = true →
      (runOps ops).showTransportCursor = true) ∧
    (setCursorDisplayed s true).timer = some 40 ∧
    (setCursorDisplayed s false).timer = none :=
  ⟨foldl_timer_cursor ops initState (fun _ => rfl), rfl, rfl⟩

/-- C1 witness: the invariant applied to a concrete sequence whose final
timer is running. -/
theorem c1_amended_timer_invariant_witness :
    (runOps [Op.cursorDisplayed true]).showTransportCursor = true ∧
    (setCursorDisplayed initState true).timer = some 40 :=
  ⟨(c1_amended_timer_invariant [Op.cursorDisplayed true] initState).1 (by decide),
   (c1_amended_timer_invariant [Op.cursorDisplayed true] initState).2.1⟩

/-- State used to evaluate the paint claim: a cached image 100 pixels
wide in an 800 by 200 viewport with zoom ratio 2. -/
def c3State : WaveState :=
  { initState with cachedImage := some ⟨100, 50⟩, zoomRatio := 2,
                   width := 800, height := 200 }

/-- Truncating an integer-valued rational returns the integer. -/
theorem cppTrunc_intCast (n : ℤ) : cppTrunc (n : ℚ) = n := by
  simp [cppTrunc]

/-- C3 counterexample: with a 100 pixel wide cached image and zoom ratio
2 the source-region width passed to drawImage is 200 (the cached width
multiplied by the zoom ratio), not 50 (the cached width divided by the
zoom ratio) as the claim states. -/
theorem c3_counterexample :
    (paint c3State).1.srcW = 200 ∧
    decide ((paint c3State).1.srcW = 50) = false := by
  have h : (paint c3State).1.srcW = 200 := by
    show cppTrunc ((imgWidth c3State.cachedImage : ℚ) * c3State.zoomRatio) = 200
    norm_num [c3State, initState, imgWidth, cppTrunc]
  exact ⟨h, by rw [h]; decide⟩

/-- C3 (amended): the render step samples the first
cachedWidth * zoomRatio source pixels (truncated to int at the call),
starting at source x = 0 and taking the full cached height, stretched
into a destination rectangle of the full viewport width; when the zoom
ratio is 1 the source-region width is exactly the cached width. -/
theorem c3_amended_paint_source_region (s : WaveState) :
    (paint s).1.srcW = cppTrunc ((imgWidth s.cachedImage : ℚ) * s.zoomRatio) ∧
    (paint s).1.srcX = 0 ∧
    (paint s).1.srcH = imgHeight s.cachedImage ∧
    (paint s).1.destW = s.width ∧
    (s.zoomRatio = 1 → (paint s).1.srcW = imgWidth s.cachedImage) := by
  refine ⟨rfl, rfl, rfl, rfl, fun h1 => ?_⟩
  show cppTrunc ((imgWidth s.cachedImage : ℚ) * s.zoomRatio) = imgWidth s.cachedImage
  rw [h1, mul_one, cppTrunc_intCast]

/-- C3 witness: the amended paint description applied at the constructor
state, whose zoom ratio is 1. -/
theorem c3_amended_paint_source_region_witness :
    (paint initState).1.srcW = imgWidth initState.cachedImage :=
  (c3_amended_paint_source_region initState).2.2.2.2 rfl

/-- C8 counterexample: resizing to a 0 by 0 viewport with a loaded source
rebuilds the cached image with the raw bounds 0 by 0 (no minimum of 1 is
substituted on the cache rebuild), and the cursor glyph height is 1, not
the viewport height 0. -/
theorem c8_counterexample :
    (resized initState 0 0 true ⟨7, 5⟩).cachedImage = some ⟨0, 0⟩ ∧
    decide ((resized initState 0 0 true ⟨7, 5⟩).cachedImage = some ⟨1, 1⟩) = false ∧
    (resized initState 0 0 true ⟨7, 5⟩).cursorImage = some ⟨3, 1⟩ ∧
    decide ((resized initState 0 0 true ⟨7, 5⟩).cursorImage = some ⟨3, 0⟩) = false := by
  decide

/-- C8 (amended): after every resize the cursor glyph is 3 pixels wide
with height max(1, newHeight) (only the glyph height is clamped to a
minimum of 1); when the source has finished loading the cached image is
rescaled to exactly the new viewport size, zero dimensions included, and
otherwise it is left unchanged. -/
theorem c8_amended_resize (s : WaveState) (w h : ℤ) (img : Img) :
    (resized s w h true img).cursorImage = some ⟨3, max 1 h⟩ ∧
    (resized s w h false img).cursorImage = some ⟨3, max 1 h⟩ ∧
    (resized s w h true img).cachedImage = some ⟨w, h⟩ ∧
    (resized s w h false img).cachedImage = s.cachedImage ∧
    (resized s w h true img).width = w ∧
    (resized s w h true img).height = h :=
  ⟨rfl, rfl, rfl, rfl, rfl, rfl⟩

/-- State used to exercise a tick that moves the cursor: 800 by 200
viewport, file length 100 seconds, zoom 1, no start offset, buffered
cursor coordinate 0. -/
def c6State : WaveState :=
  { initState with width := 800, height := 200, fileLength := 100,
                   oneOverFileLength := 1 / 100 }

/-- C6: on every tick, when the newly computed cursor pixel equals the
previously stored one nothing is repainted; when it differs, exactly the
two rectangles (previous - 2, 0, 5, h) and (new - 2, 0, 5, h) are
requested, each 5 pixels wide over the full viewport height, and a
full-component repaint is never requested. -/
theorem c6_minimal_redraw (s : WaveState) (pos : ℚ) :
    (timerCallback s pos).repaints =
      (if s.transportLineXCoord.current = cursorPixel s pos then []
       else [RepaintReq.region (s.transportLineXCoord.current - 2) 0 5 s.height,
             RepaintReq.region (cursorPixel s pos - 2) 0 5 s.height]) ∧
    (timerCallback s pos).repaints.count RepaintReq.full = 0 := by
  by_cases h : s.transportLineXCoord.current = cursorPixel s pos <;>
    simp [timerCallback, StateVariable.set, StateVariable.areEqual, h,
          List.count_cons]

/-- C6 witness: a concrete tick from coordinate 0 to coordinate 400
requests exactly the two 5 pixel bands. -/
theorem c6_minimal_redraw_witness :
    (timerCallback c6State 50).repaints =
      [RepaintReq.region (-2) 0 5 200, RepaintReq.region 398 0 5 200] := by
  have hpx : cursorPixel c6State 50 = 400 := by
    show cppTrunc ((startPixelOf c6State : ℚ) +
      ((c6State.width : ℚ) * c6State.oneOverFileLength * 50) / c6State.zoomRatio) = 400
    norm_num [c6State, initState, startPixelOf, cppTrunc, Int.tdiv_one]
  have h := (c6_minimal_redraw c6State 50).1
  rw [h, hpx]
  norm_num [c6State, initState]

/-- C7: the forward pixel mapping of the poller and the inverse mapping
of the interaction handler are exact inverses over the rationals for
every positive viewport width, file length and zoom ratio and every
position in the file, hence they agree within any floating-point
tolerance. -/
theorem c7_mapper_inverse (w L z so p : ℚ) (hw : 0 < w) (hL : 0 < L)
    (hz : 0 < z) (hp0 : 0 ≤ p) (hpL : p ≤ L) :
    positionForPixel (pixelForPosition p w so z L) w so z L = p := by
  have hw0 : w ≠ 0 := ne_of_gt hw
  have hL0 : L ≠ 0 := ne_of_gt hL
  have hz0 : z ≠ 0 := ne_of_gt hz
  unfold positionForPixel pixelForPosition
  field_simp
  ring

/-- C7 witness: the round trip at viewport 800, file length 100, zoom 1,
offset 0, position 50. -/
theorem c7_mapper_inverse_witness :
    positionForPixel (pixelForPosition 50 800 0 1 100) 800 0 1 100 = 50 :=
  c7_mapper_inverse 800 100 1 0 50 (by norm_num) (by norm_num) (by norm_num)
    (by norm_num) (by norm_num)

/-- Scenario state of the spec: viewport 800 by 200, file length 100
seconds, zoom 1, no start offset, cursor shown, poller running. -/
def c9State : WaveState :=
  { initState with width := 800, height := 200, fileLength := 100,
                   oneOverFileLength := 1 / 100, startOffsetRatio := 0,
                   zoomRatio := 1, showTransportCursor := true,
                   timer := some 40 }

/-- C9: at position 50 seconds the tick stores cursor pixel 400 with zoom
ratio 1 and pixel 200 with zoom ratio 2, and a press at pixel 400 under
the first parameter set issues a seek request of exactly 50 seconds. -/
theorem c9_scenarios :
    (timerCallback c9State 50).state.transportLineXCoord.current = 400 ∧
    (timerCallback { c9State with zoomRatio := 2 } 50).state.transportLineXCoord.current = 200 ∧
    (mouseDown c9State 400).seekRequest = some 50 := by
  refine ⟨?_, ?_, ?_⟩
  · show cursorPixel c9State 50 = 400
    norm_num [cursorPixel, startPixelOf, c9State, initState, cppTrunc, Int.tdiv_one]
  · show cursorPixel { c9State with zoomRatio := 2 } 50 = 200
    norm_num [cursorPixel, startPixelOf, c9State, initState, cppTrunc, Int.tdiv_one]
  · show some ((c9State.fileLength / (c9State.width : ℚ)) * c9State.zoomRatio *
      ((400 - startPixelOf c9State : ℤ) : ℚ)) = some 50
    norm_num [c9State, initState, startPixelOf, cppTrunc, Int.tdiv_one]
